import Mathlib

/-!
Verification of the trading core of `iqoption-trading-app` against its
specification.

The Python source is shallow-embedded:
* pure numeric code (pandas series arithmetic) becomes functions over `ℚ`,
  with the IEEE special values `inf`/`-inf`/`NaN` that pandas produces on
  zero-denominator divisions modelled explicitly by the type `RVal`
  (exact rational arithmetic stands in for binary floats);
* the module-global `daily_stats` dict becomes a `DailyStats` record threaded
  explicitly through the functions that mutate it;
* the broker gateway (`iq_api`) becomes an oracle record `Env`: successive
  `get_balance()` answers are a stream indexed by a call counter,
  `get_candles`/`place_binary_order` are response functions;
* Python `None` returns become `Option`, dict truthiness is modelled where the
  source relies on it (`if result:`, `if profit_loss:`, `if not candles:`).
-/

namespace IQApp

/-- One OHLCV bar, as produced by the gateway (`app/models/trading.py`,
`Candle`).  The field `open` is a Lean keyword, hence `open_`. -/
structure Candle where
  open_ : ℚ
  high : ℚ
  low : ℚ
  close : ℚ
  volume : ℚ
  timestamp : ℤ
deriving DecidableEq, Repr

/-- Pandas float values arising in the rolling-window math: a finite value,
`+inf`, `-inf`, or `NaN`.  `NaN` is what `rolling(...).mean()` yields while the
window is not yet full, and what `0.0 / 0.0` yields. -/
inductive RVal where
  | nan : RVal
  | pinf : RVal
  | ninf : RVal
  | fin (q : ℚ) : RVal
deriving DecidableEq, Repr

/-- IEEE-style addition (NaN propagates, `inf + (-inf) = NaN`). -/
def RVal.add : RVal → RVal → RVal
  | .nan, _ => .nan
  | _, .nan => .nan
  | .pinf, .ninf => .nan
  | .ninf, .pinf => .nan
  | .pinf, _ => .pinf
  | _, .pinf => .pinf
  | .ninf, _ => .ninf
  | _, .ninf => .ninf
  | .fin a, .fin b => .fin (a + b)

/-- IEEE-style subtraction. -/
def RVal.sub : RVal → RVal → RVal
  | .nan, _ => .nan
  | _, .nan => .nan
  | .pinf, .pinf => .nan
  | .ninf, .ninf => .nan
  | .pinf, _ => .pinf
  | _, .pinf => .ninf
  | .ninf, _ => .ninf
  | _, .ninf => .pinf
  | .fin a, .fin b => .fin (a - b)

/-- IEEE-style division: a nonzero finite value divided by zero gives a signed
infinity (pandas semantics for `x / 0.0`), `0 / 0` gives NaN, finite over
infinite gives 0. -/
def RVal.div : RVal → RVal → RVal
  | .nan, _ => .nan
  | _, .nan => .nan
  | .pinf, .pinf => .nan
  | .pinf, .ninf => .nan
  | .ninf, .pinf => .nan
  | .ninf, .ninf => .nan
  | .pinf, .fin b => if b < 0 then .ninf else .pinf
  | .ninf, .fin b => if b < 0 then .pinf else .ninf
  | .fin _, .pinf => .fin 0
  | .fin _, .ninf => .fin 0
  | .fin a, .fin b =>
      if b = 0 then (if a = 0 then .nan else if 0 < a then .pinf else .ninf)
      else .fin (a / b)

/-- IEEE-style `<`: any comparison with NaN is false. -/
def RVal.lt : RVal → RVal → Bool
  | .nan, _ => false
  | _, .nan => false
  | .ninf, .ninf => false
  | .ninf, _ => true
  | .pinf, _ => false
  | .fin _, .pinf => true
  | .fin _, .ninf => false
  | .fin a, .fin b => decide (a < b)

/-- IEEE-style `>`: `a > b` is `b < a` (false whenever NaN is involved). -/
def RVal.gt (a b : RVal) : Bool := RVal.lt b a

/-- The last `n` elements of a list (the window a trailing rolling mean sees). -/
def lastN (n : ℕ) (xs : List α) : List α := xs.drop (xs.length - n)

/-- Last value of `Series.rolling(window).mean()`: NaN while fewer than
`window` observations exist, otherwise the arithmetic mean of the trailing
`window` values.  (Pandas rejects `window = 0`; the source only uses the
configured windows 14 and 10, so that case is never exercised.) -/
def rollingMeanLast (window : ℕ) (xs : List ℚ) : RVal :=
  if 1 ≤ window ∧ window ≤ xs.length then
    RVal.fin ((lastN window xs).sum / (window : ℚ))
  else RVal.nan

/-- The per-bar gain series `delta.where(delta > 0, 0)` of
`calculate_rsi` (`analysis.py` line 62): the first `diff()` entry is NaN, and
`NaN > 0` is false, so position 0 contributes 0. -/
def gains : List ℚ → List ℚ
  | [] => []
  | c :: rest => 0 :: gainsAux c rest
where gainsAux : ℚ → List ℚ → List ℚ
  | _, [] => []
  | prev, x :: xs => (if 0 < x - prev then x - prev else 0) :: gainsAux x xs

/-- The per-bar loss series `-delta.where(delta < 0, 0)` of
`calculate_rsi` (`analysis.py` line 63). -/
def losses : List ℚ → List ℚ
  | [] => []
  | c :: rest => 0 :: lossesAux c rest
where lossesAux : ℚ → List ℚ → List ℚ
  | _, [] => []
  | prev, x :: xs => (if x - prev < 0 then -(x - prev) else 0) :: lossesAux x xs

/-- The recognized configuration options (`config.py`, class `Config`),
with the defaults used by `cfgDefault` below. -/
structure Config where
  EXPIRATION_TIME : ℕ
  MAX_BANK_PERCENTAGE : ℚ
  DAILY_STOP_LOSS : ℚ
  DAILY_STOP_GAIN : ℚ
  RSI_PERIOD : ℕ
  RSI_OVERBOUGHT : ℚ
  RSI_OVERSOLD : ℚ
  MACD_FAST : ℕ
  MACD_SLOW : ℕ
  MACD_SIGNAL : ℕ

/-- The defaults of `config.py`. -/
def cfgDefault : Config :=
  { EXPIRATION_TIME := 1
    MAX_BANK_PERCENTAGE := 1/5
    DAILY_STOP_LOSS := 2/5
    DAILY_STOP_GAIN := 1
    RSI_PERIOD := 14
    RSI_OVERBOUGHT := 70
    RSI_OVERSOLD := 30
    MACD_FAST := 12
    MACD_SLOW := 26
    MACD_SIGNAL := 9 }

/-- Result dict of `calculate_rsi` (`analysis.py` lines 84-89). -/
structure RsiResult where
  value : RVal
  signal : String
  overbought : Bool
  oversold : Bool
deriving DecidableEq, Repr

/-- Function `calculate_rsi` (`analysis.py` lines 50-89).  The source computes whole
pandas series and reads `iloc[-1]`; here the trailing values are computed
directly (the last entry of an elementwise combination is the combination of
the last entries).  Callers always pass a non-empty series (`analyze_asset`
returns early on empty candle data), so `iloc[-1]` never faults. -/
def calculate_rsi (cfg : Config) (candles : List Candle) : RsiResult :=
  let closes := candles.map Candle.close
  let avg_gain := rollingMeanLast cfg.RSI_PERIOD (gains closes)
  let avg_loss := rollingMeanLast cfg.RSI_PERIOD (losses closes)
  let rs := RVal.div avg_gain avg_loss
  let latest_rsi :=
    RVal.sub (RVal.fin 100) (RVal.div (RVal.fin 100) (RVal.add (RVal.fin 1) rs))
  let signal :=
    if RVal.lt latest_rsi (RVal.fin cfg.RSI_OVERSOLD) then "CALL"
    else if RVal.gt latest_rsi (RVal.fin cfg.RSI_OVERBOUGHT) then "PUT"
    else "NEUTRAL"
  { value := latest_rsi
    signal := signal
    overbought := RVal.gt latest_rsi (RVal.fin cfg.RSI_OVERBOUGHT)
    oversold := RVal.lt latest_rsi (RVal.fin cfg.RSI_OVERSOLD) }

/-- Recurrence of `Series.ewm(span, adjust=False).mean()` after the first element:
`e_i = α x_i + (1-α) e_(i-1)`. -/
def ewmAux (a : ℚ) : ℚ → List ℚ → List ℚ
  | _, [] => []
  | prev, x :: xs =>
      let e := a * x + (1 - a) * prev
      e :: ewmAux a e xs

/-- Full `Series.ewm(span, adjust=False).mean()` series, seeded with the first
element. -/
def ewmSeries (span : ℕ) (xs : List ℚ) : List ℚ :=
  match xs with
  | [] => []
  | x :: rest => x :: ewmAux (2 / ((span : ℚ) + 1)) x rest

/-- Result dict of `calculate_macd` (`analysis.py` lines 124-129). -/
structure MacdResult where
  macd : ℚ
  signal : String
  histogram : ℚ
  crossover : Bool
deriving DecidableEq, Repr

/-- Function `calculate_macd` (`analysis.py` lines 91-129).  Callers always pass a
non-empty series, so the `iloc[-1]` reads are in range; `iloc[-2]` is guarded
by `len(histogram) > 1` in the source itself. -/
def calculate_macd (cfg : Config) (candles : List Candle) : MacdResult :=
  let closes := candles.map Candle.close
  let ema_fast := ewmSeries cfg.MACD_FAST closes
  let ema_slow := ewmSeries cfg.MACD_SLOW closes
  let macd_line := List.zipWith (· - ·) ema_fast ema_slow
  let signal_line := ewmSeries cfg.MACD_SIGNAL macd_line
  let histogram := List.zipWith (· - ·) macd_line signal_line
  let latest_macd := macd_line.getLast?.getD 0
  let latest_signal := signal_line.getLast?.getD 0
  let latest_histogram := histogram.getLast?.getD 0
  let prev_histogram :=
    if 1 < histogram.length then histogram.dropLast.getLast?.getD 0 else 0
  let signal :=
    if latest_macd > latest_signal ∧ 0 < latest_histogram ∧
        prev_histogram < latest_histogram then "CALL"
    else if latest_macd < latest_signal ∧ latest_histogram < 0 ∧
        latest_histogram < prev_histogram then "PUT"
    else "NEUTRAL"
  { macd := latest_macd
    signal := signal
    histogram := latest_histogram
    crossover := decide (latest_macd > latest_signal) }

/-- Result dict of `analyze_volume` (`analysis.py` lines 153-158).  The
`volume_ratio` entry is named `volume_ratio_` here. -/
structure VolumeResult where
  volume : ℚ
  avg_volume : ℚ
  volume_ratio_ : RVal
  signal : String
deriving DecidableEq, Repr

/-- Function `analyze_volume` (`analysis.py` lines 131-158).  `rolling(window=10)` on
fewer than 10 bars yields NaN, in which case the source substitutes ratio 1
and reports `avg_volume` as 0.  Callers always pass a non-empty series. -/
def analyze_volume (candles : List Candle) : VolumeResult :=
  let volumes := candles.map Candle.volume
  let avg_volume := rollingMeanLast 10 volumes
  let latest_volume := volumes.getLast?.getD 0
  let vr : RVal :=
    match avg_volume with
    | RVal.fin q => RVal.div (RVal.fin latest_volume) (RVal.fin q)
    | _ => RVal.fin 1
  let price_change :=
    (candles.map Candle.close).getLast?.getD 0 -
      (candles.map Candle.open_).getLast?.getD 0
  let signal :=
    if RVal.gt vr (RVal.fin (3/2)) ∧ 0 < price_change then "CALL"
    else if RVal.gt vr (RVal.fin (3/2)) ∧ price_change < 0 then "PUT"
    else "NEUTRAL"
  { volume := latest_volume
    avg_volume := match avg_volume with | RVal.fin q => q | _ => 0
    volume_ratio_ := vr
    signal := signal }

/-- Result dict of `detect_candlestick_patterns` (`analysis.py` lines
160-215).  The engulfing keys are only inserted when at least two candles are
available; `Option Bool` models the possibly-absent dict keys, read back with
`.get(key, False)`. -/
structure PatternsResult where
  doji : Bool
  hammer : Bool
  bullish_engulfing : Option Bool
  bearish_engulfing : Option Bool
  signal : String
deriving DecidableEq, Repr

/-- Function `detect_candlestick_patterns` (`analysis.py` lines 160-215) over the last
three candles.  Callers always pass a non-empty series, so the dummy default
of `iloc[-1]` is never selected. -/
def detect_candlestick_patterns (candles : List Candle) : PatternsResult :=
  let last_candles := lastN 3 candles
  let latest := last_candles.getLast?.getD ⟨0, 0, 0, 0, 0, 0⟩
  let body_size := |latest.close - latest.open_|
  let upper_shadow := latest.high - max latest.open_ latest.close
  let lower_shadow := min latest.open_ latest.close - latest.low
  let is_bullish : Bool := decide (latest.open_ < latest.close)
  let bodyToRange :=
    if 0 < latest.high - latest.low then body_size / (latest.high - latest.low)
    else 0
  let doji : Bool := decide (bodyToRange < 1/10)
  let lowerShadowR := if 0 < body_size then lower_shadow / body_size else 0
  let upperShadowR := if 0 < body_size then upper_shadow / body_size else 0
  let hammer : Bool := decide (2 < lowerShadowR ∧ upperShadowR < 1/2)
  let engulfing : Option (Bool × Bool) :=
    if 2 ≤ last_candles.length then
      let prev := last_candles.dropLast.getLast?.getD ⟨0, 0, 0, 0, 0, 0⟩
      let prev_bullish : Bool := decide (prev.open_ < prev.close)
      some
        (is_bullish && !prev_bullish &&
           decide (latest.open_ < prev.close) && decide (prev.open_ < latest.close),
         !is_bullish && prev_bullish &&
           decide (prev.close < latest.open_) && decide (latest.close < prev.open_))
    else none
  let bullish_engulfing := engulfing.map Prod.fst
  let bearish_engulfing := engulfing.map Prod.snd
  let signal :=
    if bullish_engulfing.getD false || (hammer && is_bullish) then "CALL"
    else if bearish_engulfing.getD false || (hammer && !is_bullish) then "PUT"
    else "NEUTRAL"
  { doji := doji
    hammer := hammer
    bullish_engulfing := bullish_engulfing
    bearish_engulfing := bearish_engulfing
    signal := signal }

/-- Result dict of `determine_overall_signal` (`analysis.py` lines 238-243). -/
structure OverallResult where
  signal : String
  strength : ℚ
  call_count : ℕ
  put_count : ℕ
deriving DecidableEq, Repr

/-- Function `determine_overall_signal` (`analysis.py` lines 217-243).  The input is
the `signals` dict as a keyed list; every value at the single call site
(`analyze_asset` line 42) is a sub-result dict carrying a `'signal'` entry, so
the `isinstance(v, dict)` filter always passes and only that entry matters —
each list element pairs the key with the value's `'signal'` string.  Note the
source sets `total_indicators = len(signals) - 1` (its comment says this
excludes the `'overall'` key), and Python's true division is modelled by `ℚ`
division (the zero-denominator case is unreachable from `analyze_asset`,
which always passes four entries). -/
def determine_overall_signal (signals : List (String × String)) : OverallResult :=
  let call_count := (signals.filter (fun kv => kv.2 = "CALL")).length
  let put_count := (signals.filter (fun kv => kv.2 = "PUT")).length
  let total_indicators : ℚ := (signals.length : ℚ) - 1
  if put_count < call_count then
    { signal := "CALL"
      strength := ((call_count : ℚ) / total_indicators) * 100
      call_count := call_count
      put_count := put_count }
  else if call_count < put_count then
    { signal := "PUT"
      strength := ((put_count : ℚ) / total_indicators) * 100
      call_count := call_count
      put_count := put_count }
  else
    { signal := "NEUTRAL"
      strength := 0
      call_count := call_count
      put_count := put_count }

/-- The `signals` dict built by `analyze_asset` (`analysis.py` lines 27-42),
before `'overall'` is inserted. -/
structure Signals where
  rsi : RsiResult
  macd : MacdResult
  volume : VolumeResult
  patterns : PatternsResult
  overall : OverallResult
deriving DecidableEq, Repr

/-- Function `analyze_asset` (`analysis.py` lines 9-48), with the gateway's candle
answer passed in (`none` models a `get_candles` failure; the empty list is
falsy, so `if not candles` also rejects it).  At the point where
`determine_overall_signal(signals)` runs, the dict holds exactly the four
indicator entries — `'overall'` is inserted only afterwards. -/
def analyze_asset (cfg : Config) (candles : Option (List Candle)) : Option Signals :=
  match candles with
  | none => none
  | some cs =>
    if cs = [] then none
    else
      let r := calculate_rsi cfg cs
      let m := calculate_macd cfg cs
      let v := analyze_volume cs
      let p := detect_candlestick_patterns cs
      let overall := determine_overall_signal
        [("rsi", r.signal), ("macd", m.signal), ("volume", v.signal),
         ("patterns", p.signal)]
      some ⟨r, m, v, p, overall⟩

/-- Per-asset statistics dict (`bank_management.py` lines 158-163). -/
structure AssetStats where
  trades : ℕ
  wins : ℕ
  losses : ℕ
  profit_loss : ℚ
deriving DecidableEq, Repr

/-- One trade record dict (`bank_management.py` lines 166-173). -/
structure TradeRec where
  timestamp : String
  asset : String
  amount : ℚ
  direction : String
  result : Option String
  profit_loss : Option ℚ
deriving DecidableEq, Repr

/-- The module-global `daily_stats` dict (`bank_management.py` lines 9-16).
Calendar days are abstracted to `ℤ`; the `assets` dict is a lookup map. -/
structure DailyStats where
  date : ℤ
  initial_balance : ℚ
  current_balance : ℚ
  profit_loss : ℚ
  trades : List TradeRec
  assets : String → Option AssetStats

/-- The module-initialisation value of `daily_stats` (`bank_management.py`
lines 9-16): today's date, zero balances, empty collections. -/
def initialDailyStats (d : ℤ) : DailyStats :=
  { date := d
    initial_balance := 0
    current_balance := 0
    profit_loss := 0
    trades := []
    assets := fun _ => none }

/-- Pure core of `initialize_daily_stats` (`bank_management.py` lines 18-43):
`today` is `date.today()` and `bal` the answer `iq_api.get_balance()` would
give (fetched only inside the new-day branch; `none` models a `None` answer,
on which the stats are left untouched). -/
def initialize_daily_stats (today : ℤ) (bal : Option ℚ) (s : DailyStats) :
    DailyStats :=
  if s.date ≠ today then
    match bal with
    | some balance =>
        { date := today
          initial_balance := balance
          current_balance := balance
          profit_loss := 0
          trades := []
          assets := fun _ => none }
    | none => s
  else s

/-- Pure core of `update_balance` (`bank_management.py` lines 45-61): `bal` is
the `iq_api.get_balance()` answer. -/
def update_balance (bal : Option ℚ) (s : DailyStats) : DailyStats :=
  match bal with
  | some balance =>
      { s with
        current_balance := balance
        profit_loss := balance - s.initial_balance }
  | none => s

/-- Function `record_trade` (`bank_management.py` lines 143-191), returning the mutated
stats and the created trade dict.  Python truthiness is preserved: the
`if result:` branch runs only for a non-`None`, non-empty string, and
`if profit_loss:` adds only a non-`None`, non-zero amount. -/
def record_trade (ts : String) (asset : String) (amount : ℚ) (direction : String)
    (result : Option String) (profit_loss : Option ℚ) (s : DailyStats) :
    DailyStats × TradeRec :=
  let assets1 : String → Option AssetStats :=
    match s.assets asset with
    | some _ => s.assets
    | none => fun a => if a = asset then some ⟨0, 0, 0, 0⟩ else s.assets a
  let trade : TradeRec :=
    { timestamp := ts
      asset := asset
      amount := amount
      direction := direction
      result := result
      profit_loss := profit_loss }
  let s1 := { s with assets := assets1, trades := s.trades ++ [trade] }
  let truthyResult : Bool :=
    match result with
    | some r => decide (r ≠ "")
    | none => false
  if truthyResult then
    let st0 := (s1.assets asset).getD ⟨0, 0, 0, 0⟩
    let st1 := { st0 with trades := st0.trades + 1 }
    let st2 :=
      if result = some "WIN" then { st1 with wins := st1.wins + 1 }
      else if result = some "LOSS" then { st1 with losses := st1.losses + 1 }
      else st1
    let st3 :=
      match profit_loss with
      | some p => if p ≠ 0 then { st2 with profit_loss := st2.profit_loss + p }
                  else st2
      | none => st2
    ({ s1 with assets := fun a => if a = asset then some st3 else s1.assets a },
     trade)
  else (s1, trade)

/-- Answer of `iq_api.place_binary_order`: either an exception (caught by the
`except` clause of `execute_trades`) or a returned value — `ret none` is a
falsy result (`None`/empty dict), `ret (some oid)` a truthy dict whose
`.get('id')` is `oid`. -/
inductive PlaceResult where
  | raise (msg : String) : PlaceResult
  | ret (r : Option (Option String)) : PlaceResult
deriving DecidableEq, Repr

/-- The gateway and clock, as oracles: `getBalance` is the stream of
successive `iq_api.get_balance()` answers (indexed by a call counter),
`getCandles` the candle answer per asset, `placeOrder` the order answer,
`today` is `date.today()` and `now` the `datetime.now().isoformat()` stamp. -/
structure Env where
  today : ℤ
  getBalance : ℕ → Option ℚ
  getCandles : String → Option (List Candle)
  placeOrder : String → ℚ → String → ℕ → PlaceResult
  now : String

/-- The mutable process state threaded through the banking functions: the
`daily_stats` global plus the count of `get_balance` calls made so far. -/
structure St where
  stats : DailyStats
  calls : ℕ

/-- Step `initialize_daily_stats` as executed against the gateway: the balance is
fetched (consuming one `get_balance` answer) only in the new-day branch. -/
def initStep (env : Env) (s : St) : St :=
  if s.stats.date ≠ env.today then
    { stats := initialize_daily_stats env.today (env.getBalance s.calls) s.stats
      calls := s.calls + 1 }
  else s

/-- Step `update_balance` as executed against the gateway: always consumes one
`get_balance` answer. -/
def updateStep (env : Env) (s : St) : St :=
  { stats := update_balance (env.getBalance s.calls) s.stats
    calls := s.calls + 1 }

/-- Result dict of `check_stop_conditions` (`bank_management.py` lines
88-104): the `reason` key exists only when a stop triggered. -/
structure StopCheck where
  stop_triggered : Bool
  reason : Option String
  percentage : ℚ
deriving DecidableEq, Repr

/-- Function `check_stop_conditions` (`bank_management.py` lines 63-104).  Note the
source calls `initialize_daily_stats` only when `initial_balance == 0`, then
always calls `update_balance`. -/
def check_stop_conditions (cfg : Config) (env : Env) (s : St) : StopCheck × St :=
  let s1 := if s.stats.initial_balance = 0 then initStep env s else s
  let s2 := updateStep env s1
  let pl_percentage : ℚ :=
    if 0 < s2.stats.initial_balance then
      s2.stats.profit_loss / s2.stats.initial_balance * 100
    else 0
  let stop_loss_pct := cfg.DAILY_STOP_LOSS * 100
  let stop_gain_pct := cfg.DAILY_STOP_GAIN * 100
  if pl_percentage ≤ -stop_loss_pct then
    (⟨true, some "STOP_LOSS", pl_percentage⟩, s2)
  else if stop_gain_pct ≤ pl_percentage then
    (⟨true, some "STOP_GAIN", pl_percentage⟩, s2)
  else (⟨false, none, pl_percentage⟩, s2)

/-- Python's `round(x, 2)`: scale by 100 and round half to even. -/
def pyRound2 (q : ℚ) : ℚ :=
  let y := q * 100
  let f := Int.floor y
  let r := y - (f : ℚ)
  let n : ℤ :=
    if r < 1/2 then f
    else if 1/2 < r then f + 1
    else if f % 2 = 0 then f else f + 1
  (n : ℚ) / 100

/-- Function `calculate_entry_amount` (`bank_management.py` lines 106-141), returning
the per-asset amount dict as a lookup map.  The empty-asset early return
happens after the initialisation and balance refresh, as in the source. -/
def calculate_entry_amount (cfg : Config) (env : Env) (assets : List String)
    (s : St) : (String → Option ℚ) × St :=
  let s1 := if s.stats.initial_balance = 0 then initStep env s else s
  let s2 := updateStep env s1
  let total_risk_amount := s2.stats.current_balance * cfg.MAX_BANK_PERCENTAGE
  if assets.length = 0 then (fun _ => none, s2)
  else
    let per_asset_amount := total_risk_amount / (assets.length : ℚ)
    let amt := max 1 (pyRound2 per_asset_amount)
    (fun a => if a ∈ assets then some amt else none, s2)

/-- One entry of `results['trades']` in `execute_trades` (`trading.py` lines
78-104): the keys present differ per outcome, hence the `Option` fields. -/
structure TradeOutcome where
  asset : String
  direction : Option String
  amount : Option ℚ
  expiration : Option ℕ
  order_id : Option String
  status : String
  message : Option String
deriving DecidableEq, Repr

/-- An order submission actually sent to the gateway (observable trace of
`iq_api.place_binary_order` calls). -/
structure Order where
  asset : String
  amount : ℚ
  direction : String
  expiration : ℕ
deriving DecidableEq, Repr

/-- The dict returned by `execute_trades` (`trading.py` lines 28-32 and
37-40): the stop branch carries `reason`/`percentage`, the executed branch
the outcome list. -/
structure ExecReport where
  status : String
  reason : Option String
  percentage : Option ℚ
  trades : List TradeOutcome
deriving DecidableEq, Repr

/-- The per-asset loop of `execute_trades` (`trading.py` lines 43-104),
accumulating report entries and submitted orders.  The three `continue`
branches (amount below 1, failed analysis, neutral/weak signal) append no
report entry, exactly as in the source.  Inside the `try` body the only
fallible call after the guards is `place_binary_order`; when it raises, the
trade record made just before it persists and an `error` entry is appended. -/
def tradeLoop (cfg : Config) (env : Env) (entry_amounts : String → Option ℚ) :
    List String → St → List TradeOutcome → List Order →
      St × List TradeOutcome × List Order
  | [], s, acc, orders => (s, acc, orders)
  | asset :: rest, s, acc, orders =>
    if (entry_amounts asset).getD 0 < 1 then
      tradeLoop cfg env entry_amounts rest s acc orders
    else
      match analyze_asset cfg (env.getCandles asset) with
      | none => tradeLoop cfg env entry_amounts rest s acc orders
      | some analysis =>
        let overall := analysis.overall
        if overall.signal = "NEUTRAL" ∨ overall.strength < 60 then
          tradeLoop cfg env entry_amounts rest s acc orders
        else
          let direction := overall.signal
          let amount := (entry_amounts asset).getD 0
          let expiration := cfg.EXPIRATION_TIME
          let rec1 := record_trade env.now asset amount direction none none s.stats
          let s' : St := { stats := rec1.1, calls := s.calls }
          let orders' := orders ++ [⟨asset, amount, direction, expiration⟩]
          match env.placeOrder asset amount direction expiration with
          | PlaceResult.ret (some oid) =>
              tradeLoop cfg env entry_amounts rest s'
                (acc ++ [{ asset := asset, direction := some direction,
                           amount := some amount, expiration := some expiration,
                           order_id := oid, status := "placed", message := none }])
                orders'
          | PlaceResult.ret none =>
              tradeLoop cfg env entry_amounts rest s'
                (acc ++ [{ asset := asset, direction := some direction,
                           amount := some amount, expiration := some expiration,
                           order_id := none, status := "failed", message := none }])
                orders'
          | PlaceResult.raise msg =>
              tradeLoop cfg env entry_amounts rest s'
                (acc ++ [{ asset := asset, direction := none, amount := none,
                           expiration := none, order_id := none,
                           status := "error", message := some msg }])
                orders'

/-- Function `execute_trades` (`trading.py` lines 14-106): stop check first, returning
a `stopped` report immediately when triggered; otherwise sizing followed by
the per-asset loop.  Also returns the final state and the trace of orders
submitted to the gateway. -/
def execute_trades (cfg : Config) (env : Env) (assets : List String) (s : St) :
    ExecReport × St × List Order :=
  let cs := check_stop_conditions cfg env s
  if cs.1.stop_triggered then
    ({ status := "stopped", reason := cs.1.reason,
       percentage := some cs.1.percentage, trades := [] }, cs.2, [])
  else
    let ea := calculate_entry_amount cfg env assets cs.2
    let lp := tradeLoop cfg env ea.1 assets ea.2 [] []
    ({ status := "executed", reason := none, percentage := none,
       trades := lp.2.1 }, lp.1, lp.2.2)

/-- The ledger-mutating operations named by the spec, each carrying the
gateway answer it would consume: initialisation/rollover, a balance refresh,
or a trade recording. -/
inductive LOp where
  | init (today : ℤ) (bal : Option ℚ) : LOp
  | update (bal : Option ℚ) : LOp
  | record (ts asset : String) (amount : ℚ) (direction : String)
      (result : Option String) (profit_loss : Option ℚ) : LOp

/-- Apply one ledger operation to the stats. -/
def applyOp (s : DailyStats) : LOp → DailyStats
  | LOp.init today bal => initialize_daily_stats today bal s
  | LOp.update bal => update_balance bal s
  | LOp.record ts asset amount direction result pl =>
      (record_trade ts asset amount direction result pl s).1

/-- The ledger-level consistency invariant of the spec:
`current_balance − opening_balance == realized_pl`. -/
def ledgerInvariant (s : DailyStats) : Prop :=
  s.current_balance - s.initial_balance = s.profit_loss

/-- Predicate on report entries: tagged as placed, failed, or error (the only
tags `execute_trades` ever appends). -/
def statusOk (t : TradeOutcome) : Bool :=
  decide (t.status = "placed" ∨ t.status = "failed" ∨ t.status = "error")

/-! ### Concrete evaluation fixtures -/

/-- A completely flat candle (all prices equal): produces no indicator
signal. -/
def flatCandle : Candle := ⟨1, 1, 1, 1, 10, 0⟩

/-- Fourteen flat candles: a constant-close series exactly filling the
default RSI window. -/
def candlesFlat14 : List Candle :=
  [flatCandle, flatCandle, flatCandle, flatCandle, flatCandle, flatCandle,
   flatCandle, flatCandle, flatCandle, flatCandle, flatCandle, flatCandle,
   flatCandle, flatCandle]

/-- A candle whose four prices all equal `q`. -/
def priceCandle (q : ℚ) (t : ℤ) : Candle := ⟨q, q, q, q, 10, t⟩

/-- Fourteen strictly rising candles (close `1..14`): a pure-gain series. -/
def candlesRise : List Candle :=
  [priceCandle 1 0, priceCandle 2 1, priceCandle 3 2, priceCandle 4 3,
   priceCandle 5 4, priceCandle 6 5, priceCandle 7 6, priceCandle 8 7,
   priceCandle 9 8, priceCandle 10 9, priceCandle 11 10, priceCandle 12 11,
   priceCandle 13 12, priceCandle 14 13]

/-- Three candles whose volumes are 10, 20, 30 (mean 20): fewer than the
10 bars the rolling volume mean needs. -/
def candlesC8 : List Candle :=
  [⟨1, 1, 1, 1, 10, 0⟩, ⟨1, 1, 1, 1, 20, 1⟩, ⟨1, 1, 1, 1, 30, 2⟩]

/-- The `signals` dict contents at the `determine_overall_signal` call site
for indicator directions `{Call, Call, Put, Neutral}`. -/
def sigC1 : List (String × String) :=
  [("rsi", "CALL"), ("macd", "CALL"), ("volume", "PUT"), ("patterns", "NEUTRAL")]

/-- The `signals` dict contents when all four indicators say `Call`. -/
def sigC2 : List (String × String) :=
  [("rsi", "CALL"), ("macd", "CALL"), ("volume", "CALL"), ("patterns", "CALL")]

/-- A ledger initialised yesterday (day 0) with opening balance 1000. -/
def statsDay0 : DailyStats :=
  { date := 0
    initial_balance := 1000
    current_balance := 1000
    profit_loss := 0
    trades := []
    assets := fun _ => none }

/-- Gateway for the rollover scenario: the wall-clock day has advanced to 1
and the broker balance is now 580. -/
def envC3 : Env :=
  { today := 1
    getBalance := fun _ => some 580
    getCandles := fun _ => none
    placeOrder := fun _ _ _ _ => PlaceResult.ret none
    now := "t" }

/-- Gateway for the stop-loss scenario of the spec: same day (0), balance
fallen to 580 against an opening 1000 (a 42% loss). -/
def envC4 : Env :=
  { today := 0
    getBalance := fun _ => some 580
    getCandles := fun _ => none
    placeOrder := fun _ _ _ _ => PlaceResult.ret none
    now := "t" }

/-- Gateway for a quiet run: same day, stable balance 1000, only flat candles
(so every asset is skipped for lack of a signal). -/
def envC7 : Env :=
  { today := 0
    getBalance := fun _ => some 1000
    getCandles := fun _ => some [flatCandle, flatCandle, flatCandle]
    placeOrder := fun _ _ _ _ => PlaceResult.ret none
    now := "t" }

/-- The full analysis result on three flat candles: every indicator neutral,
fused signal neutral with zero strength. -/
def flatSignals : Signals :=
  { rsi := ⟨RVal.nan, "NEUTRAL", false, false⟩
    macd := ⟨0, "NEUTRAL", 0, false⟩
    volume := ⟨10, 0, RVal.fin 1, "NEUTRAL"⟩
    patterns := ⟨true, false, some false, some false, "NEUTRAL"⟩
    overall := ⟨"NEUTRAL", 0, 0, 0⟩ }

/-- A ledger holding one prior trade and stats for `"EURUSD"`. -/
def statsSample : DailyStats :=
  { date := 0
    initial_balance := 1000
    current_balance := 995
    profit_loss := -5
    trades := [⟨"t0", "EURUSD", 5, "PUT", some "LOSS", some (-5)⟩]
    assets := fun a => if a = "EURUSD" then some ⟨1, 0, 1, -5⟩ else none }

/-! ### Theorems -/

/-- C1: for indicator directions `{Call, Call, Put, Neutral}` the fused
direction is `Call`, but the strength is `200/3 ≈ 66.67`, not the claimed
`50.0 = 100·2/4`: at the call site the `signals` dict holds exactly the four
indicator entries, so `total_indicators = len(signals) - 1` evaluates to 3
even though four indicator kinds were evaluated — the divisor the source's
own comment says should exclude only the (absent) `'overall'` key. -/
theorem C1_fusion_strength_divides_by_three :
    (determine_overall_signal sigC1).signal = "CALL" ∧
    (determine_overall_signal sigC1).strength = 200/3 ∧
    ¬ (determine_overall_signal sigC1).strength = 50 := by
  refine ⟨by simp [determine_overall_signal, sigC1], ?_, ?_⟩ <;>
    simp [determine_overall_signal, sigC1] <;> norm_num

/-- C2: fused strength is not bounded by 100 — when all four indicators agree
on `Call`, the source computes `strength = (4/3)·100 = 400/3 > 100`. -/
theorem C2_fusion_strength_exceeds_100 :
    (determine_overall_signal sigC2).strength = 400/3 ∧
    100 < (determine_overall_signal sigC2).strength := by
  refine ⟨?_, ?_⟩ <;> simp [determine_overall_signal, sigC2] <;> norm_num

/-- C3: a stop-check read performed on day 1 against a ledger whose
`trading_day` is still day 0 (with a nonzero opening balance) does not replace
the ledger: `initialize_daily_stats` is only invoked when
`initial_balance == 0`, so the stored day stays 0 and the stale opening
balance 1000 is kept — the lazy daily reset the claim describes never runs. -/
theorem C3_no_rollover_on_new_day :
    ((check_stop_conditions cfgDefault envC3 ⟨statsDay0, 0⟩).2.stats.date ≠
      envC3.today) ∧
    (check_stop_conditions cfgDefault envC3 ⟨statsDay0, 0⟩).2.stats.date =
      statsDay0.date ∧
    (check_stop_conditions cfgDefault envC3 ⟨statsDay0, 0⟩).2.stats.initial_balance
      = 1000 ∧
    (check_stop_conditions cfgDefault envC3 ⟨statsDay0, 0⟩).2.stats.profit_loss
      = -420 := by
  refine ⟨?_, ?_, ?_, ?_⟩ <;>
    simp [check_stop_conditions, initStep, updateStep, update_balance,
      initialize_daily_stats, statsDay0, envC3, cfgDefault] <;> norm_num

/-- C4: whenever the initial stop check of `execute_trades` reports a
triggered stop, the call returns the `stopped` report carrying that check's
reason and profit/loss percentage, with an empty outcome list, an empty trace
of gateway order submissions, and a final state identical to the state right
after the stop check — so no entry amounts are computed, no further gateway
calls happen, and no trade record is appended. -/
theorem C4_stop_short_circuits (cfg : Config) (env : Env) (assets : List String)
    (s : St) (h : (check_stop_conditions cfg env s).1.stop_triggered = true) :
    execute_trades cfg env assets s =
      ({ status := "stopped"
         reason := (check_stop_conditions cfg env s).1.reason
         percentage := some (check_stop_conditions cfg env s).1.percentage
         trades := [] },
       (check_stop_conditions cfg env s).2, []) := by
  simp [execute_trades, h]

/-- Witness for C4 at the spec's stop-loss scenario: opening balance 1000,
balance fallen to 580 (a 42% loss) with the default 40% daily stop. -/
theorem C4_stop_short_circuits_witness :
    (check_stop_conditions cfgDefault envC4 ⟨statsDay0, 0⟩).1.stop_triggered
        = true ∧
    execute_trades cfgDefault envC4 ["EURUSD"] ⟨statsDay0, 0⟩ =
      ({ status := "stopped"
         reason := (check_stop_conditions cfgDefault envC4 ⟨statsDay0, 0⟩).1.reason
         percentage :=
           some (check_stop_conditions cfgDefault envC4 ⟨statsDay0, 0⟩).1.percentage
         trades := [] },
       (check_stop_conditions cfgDefault envC4 ⟨statsDay0, 0⟩).2, []) := by
  have htrig :
      (check_stop_conditions cfgDefault envC4 ⟨statsDay0, 0⟩).1.stop_triggered
        = true := by
    simp [check_stop_conditions, initStep, updateStep, update_balance,
      initialize_daily_stats, statsDay0, envC4, cfgDefault]
    norm_num
  exact ⟨htrig, C4_stop_short_circuits cfgDefault envC4 ["EURUSD"] ⟨statsDay0, 0⟩ htrig⟩

/-- Frame lemma for `record_trade`: the scalar ledger fields are untouched,
the new trade is appended at the tail, and other assets' stats are
unchanged. -/
theorem record_trade_frame (ts asset : String) (amount : ℚ) (direction : String)
    (result : Option String) (pl : Option ℚ) (s : DailyStats) :
    (record_trade ts asset amount direction result pl s).1.date = s.date ∧
    (record_trade ts asset amount direction result pl s).1.initial_balance
      = s.initial_balance ∧
    (record_trade ts asset amount direction result pl s).1.current_balance
      = s.current_balance ∧
    (record_trade ts asset amount direction result pl s).1.profit_loss
      = s.profit_loss ∧
    (record_trade ts asset amount direction result pl s).1.trades
      = s.trades ++ [(record_trade ts asset amount direction result pl s).2] ∧
    ∀ a, a ≠ asset →
      (record_trade ts asset amount direction result pl s).1.assets a
        = s.assets a := by
  unfold record_trade
  cases hA : s.assets asset <;>
    simp only [hA] <;>
    split <;>
    refine ⟨rfl, rfl, rfl, rfl, rfl, ?_⟩ <;>
    intro a ha <;>
    simp [ha]

/-- C10: `record_trade` changes neither the trading day nor any balance or
ledger-level P/L field; it only appends the created record to `trades` and
touches the per-asset stats entry of the traded asset. -/
theorem C10_record_trade_frame (ts asset : String) (amount : ℚ)
    (direction : String) (result : Option String) (pl : Option ℚ)
    (s : DailyStats) :
    (record_trade ts asset amount direction result pl s).1.date = s.date ∧
    (record_trade ts asset amount direction result pl s).1.initial_balance
      = s.initial_balance ∧
    (record_trade ts asset amount direction result pl s).1.current_balance
      = s.current_balance ∧
    (record_trade ts asset amount direction result pl s).1.profit_loss
      = s.profit_loss ∧
    (record_trade ts asset amount direction result pl s).1.trades
      = s.trades ++ [(record_trade ts asset amount direction result pl s).2] ∧
    ∀ a, a ≠ asset →
      (record_trade ts asset amount direction result pl s).1.assets a
        = s.assets a :=
  record_trade_frame ts asset amount direction result pl s

/-- Witness for C10: recording a winning `EURUSD` trade on a populated ledger
leaves the scalar fields and the `GBPUSD` entry untouched. -/
theorem C10_record_trade_frame_witness :
    (record_trade "t1" "EURUSD" 5 "CALL" (some "WIN") (some (7/2))
        statsSample).1.profit_loss = statsSample.profit_loss ∧
    (record_trade "t1" "EURUSD" 5 "CALL" (some "WIN") (some (7/2))
        statsSample).1.assets "GBPUSD" = statsSample.assets "GBPUSD" := by
  have h := C10_record_trade_frame "t1" "EURUSD" 5 "CALL" (some "WIN")
    (some (7/2)) statsSample
  exact ⟨h.2.2.2.1, h.2.2.2.2.2 "GBPUSD" (by decide)⟩

/-- Each ledger operation preserves the consistency invariant. -/
theorem applyOp_preserves_invariant (s : DailyStats) (op : LOp)
    (h : ledgerInvariant s) : ledgerInvariant (applyOp s op) := by
  cases op with
  | init today bal =>
      cases bal with
      | none =>
          simp only [applyOp, initialize_daily_stats]
          split <;> exact h
      | some b =>
          simp only [applyOp, initialize_daily_stats]
          split
          · simp [ledgerInvariant]
          · exact h
  | update bal =>
      cases bal with
      | none => exact h
      | some b => simp [applyOp, update_balance, ledgerInvariant]
  | record ts asset amount direction result pl =>
      have hf := record_trade_frame ts asset amount direction result pl s
      show ledgerInvariant (record_trade ts asset amount direction result pl s).1
      unfold ledgerInvariant
      rw [hf.2.2.1, hf.2.1, hf.2.2.2.1]
      exact h

/-- Folding any operation sequence from an invariant-satisfying state keeps
the invariant. -/
theorem foldl_applyOp_invariant (ops : List LOp) (s : DailyStats)
    (h : ledgerInvariant s) : ledgerInvariant (ops.foldl applyOp s) := by
  induction ops generalizing s with
  | nil => exact h
  | cons op rest ih => exact ih _ (applyOp_preserves_invariant s op h)

/-- C5: after every ledger-mutating operation — initialization/rollover,
balance refresh, or trade recording — starting from the module-initial
ledger of any day, `current_balance − initial_balance = profit_loss` holds
(every prefix of the operation sequence is itself such a sequence, so the
invariant holds after each step). -/
theorem C5_ledger_invariant (d : ℤ) (ops : List LOp) :
    ledgerInvariant (ops.foldl applyOp (initialDailyStats d)) :=
  foldl_applyOp_invariant ops (initialDailyStats d)
    (by simp [ledgerInvariant, initialDailyStats])

/-- C9: the sizing map never contains an amount below 1 — the source floors
each per-asset amount with `max(1, round(..., 2))` whatever the balance
(zero or negative included, and whether or not the gateway answered) — so the
`entry_amounts.get(asset, 0) < 1` skip branch of `execute_trades` can never
fire for an asset that the sizing call covered. -/
theorem C9_entry_amount_at_least_one (cfg : Config) (env : Env)
    (assets : List String) (s : St) (a : String) (ha : a ∈ assets) :
    1 ≤ ((calculate_entry_amount cfg env assets s).1 a).getD 0 ∧
    ¬ ((calculate_entry_amount cfg env assets s).1 a).getD 0 < 1 := by
  have hnil : assets ≠ [] := List.ne_nil_of_mem ha
  have hne : ¬ assets.length = 0 := by
    simpa [List.length_eq_zero] using hnil
  have key : 1 ≤ ((calculate_entry_amount cfg env assets s).1 a).getD 0 := by
    unfold calculate_entry_amount
    simp [hne, ha, le_max_left]
  exact ⟨key, not_lt.mpr key⟩

/-- Witness for C9 on a concrete one-asset batch. -/
theorem C9_entry_amount_at_least_one_witness :
    1 ≤ ((calculate_entry_amount cfgDefault envC7 ["EURUSD"]
        ⟨statsDay0, 0⟩).1 "EURUSD").getD 0 ∧
    ¬ ((calculate_entry_amount cfgDefault envC7 ["EURUSD"]
        ⟨statsDay0, 0⟩).1 "EURUSD").getD 0 < 1 :=
  C9_entry_amount_at_least_one cfgDefault envC7 ["EURUSD"] ⟨statsDay0, 0⟩
    "EURUSD" (by simp)

/-- Division `x / 0 = +inf` for positive finite `x`. -/
theorem RVal.div_fin_zero_pos (a : ℚ) (h : 0 < a) :
    RVal.div (RVal.fin a) (RVal.fin 0) = RVal.pinf := by
  simp [RVal.div, h, h.ne']

/-- Addition `1 + inf = inf`. -/
theorem RVal.add_fin_pinf (a : ℚ) :
    RVal.add (RVal.fin a) RVal.pinf = RVal.pinf := rfl

/-- Division `x / inf = 0` for finite `x`. -/
theorem RVal.div_fin_pinf (a : ℚ) :
    RVal.div (RVal.fin a) RVal.pinf = RVal.fin 0 := rfl

/-- Finite subtraction. -/
theorem RVal.sub_fin_fin (a b : ℚ) :
    RVal.sub (RVal.fin a) (RVal.fin b) = RVal.fin (a - b) := rfl

/-- C6 (amended): when the trailing average loss is zero and the trailing
average gain is positive — the pure-gain regime, e.g. a strictly rising
series filling the RSI window — the computed RSI is exactly 100: the division
yields `+inf` and `100 − 100/(1 + inf) = 100`, with no error propagated.
(On a flat constant-close series both averages are 0 and the RSI is NaN
instead; see the counterexample.) -/
theorem C6_rsi_pure_gain_is_100 (cfg : Config) (candles : List Candle) (g : ℚ)
    (hl : rollingMeanLast cfg.RSI_PERIOD
        (losses (candles.map Candle.close)) = RVal.fin 0)
    (hg : rollingMeanLast cfg.RSI_PERIOD
        (gains (candles.map Candle.close)) = RVal.fin g)
    (hgpos : 0 < g) :
    (calculate_rsi cfg candles).value = RVal.fin 100 := by
  unfold calculate_rsi
  simp only [hl, hg, RVal.div_fin_zero_pos g hgpos, RVal.add_fin_pinf,
    RVal.div_fin_pinf, RVal.sub_fin_fin]
  norm_num

/-- Witness for C6 on the strictly rising series `1..14`: the trailing
average loss is 0, the trailing average gain is `13/14`, and the RSI computes
to 100. -/
theorem C6_rsi_pure_gain_is_100_witness :
    (calculate_rsi cfgDefault candlesRise).value = RVal.fin 100 :=
  C6_rsi_pure_gain_is_100 cfgDefault candlesRise (13/14)
    (by norm_num [candlesRise, priceCandle, losses, losses.lossesAux,
      rollingMeanLast, lastN, cfgDefault])
    (by norm_num [candlesRise, priceCandle, gains, gains.gainsAux,
      rollingMeanLast, lastN, cfgDefault])
    (by norm_num)

/-- C6 (counterexample): on the flat constant-close series of 14 bars the
trailing average loss is 0 — the regime the claim covers — yet the computed
RSI is NaN (`0/0` propagates), not 100. -/
theorem C6_flat_series_rsi_is_nan :
    rollingMeanLast cfgDefault.RSI_PERIOD
        (losses (candlesFlat14.map Candle.close)) = RVal.fin 0 ∧
    (calculate_rsi cfgDefault candlesFlat14).value = RVal.nan ∧
    RVal.nan ≠ RVal.fin 100 := by
  refine ⟨?_, ?_, by simp⟩
  · norm_num [candlesFlat14, flatCandle, losses, losses.lossesAux,
      rollingMeanLast, lastN, cfgDefault]
  · norm_num [candlesFlat14, flatCandle, calculate_rsi, gains, gains.gainsAux,
      losses, losses.lossesAux, rollingMeanLast, lastN, cfgDefault,
      RVal.div, RVal.add, RVal.sub]

/-- C8 (amended): with fewer than 10 bars the 10-bar rolling volume mean is
undefined (NaN), and the source substitutes `volume_ratio = 1` and reports
`avg_volume` as 0 — the ratio is defined and no error escapes, but the
average is not the mean of the available bars, and the signal is neutral. -/
theorem C8_few_bars_ratio_defaults_to_one (candles : List Candle)
    (_hne : candles ≠ []) (hlen : candles.length < 10) :
    (analyze_volume candles).avg_volume = 0 ∧
    (analyze_volume candles).volume_ratio_ = RVal.fin 1 ∧
    (analyze_volume candles).signal = "NEUTRAL" := by
  have hnan : rollingMeanLast 10 (candles.map Candle.volume) = RVal.nan := by
    unfold rollingMeanLast
    rw [if_neg]
    rintro ⟨-, h10⟩
    rw [List.length_map] at h10
    omega
  unfold analyze_volume
  simp only [hnan]
  norm_num [RVal.gt, RVal.lt]

/-- Witness for C8 on a concrete 3-bar series. -/
theorem C8_few_bars_ratio_defaults_to_one_witness :
    (analyze_volume candlesC8).avg_volume = 0 ∧
    (analyze_volume candlesC8).volume_ratio_ = RVal.fin 1 ∧
    (analyze_volume candlesC8).signal = "NEUTRAL" :=
  C8_few_bars_ratio_defaults_to_one candlesC8 (by simp [candlesC8])
    (by norm_num [candlesC8])

/-- C8 (counterexample): for three bars with volumes 10, 20, 30 the mean of
the available bars is 20 and the last-bar ratio would be `30/20 = 3/2`, but
the source reports `avg_volume = 0` and ratio 1. -/
theorem C8_avg_volume_not_mean_of_available :
    candlesC8.length < 10 ∧
    (analyze_volume candlesC8).avg_volume = 0 ∧
    ¬ (analyze_volume candlesC8).avg_volume = 20 ∧
    (analyze_volume candlesC8).volume_ratio_ = RVal.fin 1 ∧
    ¬ (analyze_volume candlesC8).volume_ratio_ = RVal.fin (3/2) := by
  refine ⟨by norm_num [candlesC8], ?_, ?_, ?_, ?_⟩ <;>
    norm_num [analyze_volume, candlesC8, rollingMeanLast, lastN,
      RVal.gt, RVal.lt]

/-- Every entry the per-asset loop appends carries one of the tags `placed`,
`failed`, `error`; the skip paths append nothing. -/
theorem tradeLoop_statusOk (cfg : Config) (env : Env)
    (ea : String → Option ℚ) (rest : List String) (s : St)
    (acc : List TradeOutcome) (orders : List Order)
    (h : acc.all statusOk = true) :
    ((tradeLoop cfg env ea rest s acc orders).2.1.all statusOk) = true := by
  induction rest generalizing s acc orders with
  | nil => simpa [tradeLoop] using h
  | cons asset rest ih =>
      rw [tradeLoop]
      split
      · exact ih s acc orders h
      · cases hA : analyze_asset cfg (env.getCandles asset) with
        | none => simp only [hA]; exact ih s acc orders h
        | some analysis =>
            simp only [hA]
            split
            · exact ih s acc orders h
            · cases hP : env.placeOrder asset ((ea asset).getD 0)
                analysis.overall.signal cfg.EXPIRATION_TIME with
              | raise msg =>
                  simp only [hP]
                  refine ih _ _ _ ?_
                  simp [List.all_append, h, statusOk]
              | ret r =>
                  cases r with
                  | none =>
                      simp only [hP]
                      refine ih _ _ _ ?_
                      simp [List.all_append, h, statusOk]
                  | some oid =>
                      simp only [hP]
                      refine ih _ _ _ ?_
                      simp [List.all_append, h, statusOk]

/-- C7 (amended): every entry of the report returned by `execute_trades` is
tagged `placed`, `failed`, or `error` — there is no `Skipped` tag, and an
asset skipped for a too-small amount, a failed analysis, or a neutral/weak
signal produces no report entry at all (the loop just continues), so the
report does not cover every requested asset. -/
theorem C7_report_tags_placed_failed_error (cfg : Config) (env : Env)
    (assets : List String) (s : St) :
    ((execute_trades cfg env assets s).1.trades.all statusOk) = true := by
  by_cases h : (check_stop_conditions cfg env s).1.stop_triggered = true
  · simp [execute_trades, h]
  · simp only [execute_trades, if_neg h]
    exact tradeLoop_statusOk cfg env _ assets _ [] [] rfl

/-- The RSI on three flat candles: window unfilled, value NaN, neutral. -/
theorem rsi_flat3 :
    calculate_rsi cfgDefault [flatCandle, flatCandle, flatCandle]
      = ⟨RVal.nan, "NEUTRAL", false, false⟩ := by
  norm_num [calculate_rsi, gains, gains.gainsAux, losses, losses.lossesAux,
    rollingMeanLast, lastN, flatCandle, cfgDefault, RVal.div, RVal.add,
    RVal.sub, RVal.lt, RVal.gt]

/-- The MACD on three flat candles: all lines zero, neutral. -/
theorem macd_flat3 :
    calculate_macd cfgDefault [flatCandle, flatCandle, flatCandle]
      = ⟨0, "NEUTRAL", 0, false⟩ := by
  norm_num [calculate_macd, ewmSeries, ewmAux, flatCandle, cfgDefault]

/-- The volume analysis on three flat candles: ratio defaults to 1,
neutral. -/
theorem volume_flat3 :
    analyze_volume [flatCandle, flatCandle, flatCandle]
      = ⟨10, 0, RVal.fin 1, "NEUTRAL"⟩ := by
  norm_num [analyze_volume, rollingMeanLast, lastN, flatCandle, RVal.gt,
    RVal.lt]

/-- The pattern detection on three flat candles: a zero-range bar counts as a
doji, nothing else fires, neutral. -/
theorem patterns_flat3 :
    detect_candlestick_patterns [flatCandle, flatCandle, flatCandle]
      = ⟨true, false, some false, some false, "NEUTRAL"⟩ := by
  norm_num [detect_candlestick_patterns, lastN, flatCandle]

/-- The whole analysis of three flat candles. -/
theorem analyze_flat3 :
    analyze_asset cfgDefault (some [flatCandle, flatCandle, flatCandle])
      = some flatSignals := by
  simp only [analyze_asset]
  rw [if_neg (by simp)]
  rw [rsi_flat3, macd_flat3, volume_flat3, patterns_flat3]
  simp [flatSignals, determine_overall_signal]

/-- Evaluation `round(200.0, 2) = 200`. -/
theorem pyRound2_200 : pyRound2 200 = 200 := by
  simp only [pyRound2]
  rw [show ((200 : ℚ) * 100) = ((20000 : ℤ) : ℚ) by norm_num, Int.floor_intCast]
  norm_num

/-- Projection facts for the default configuration. -/
theorem cfgDefault_expiration : cfgDefault.EXPIRATION_TIME = 1 := rfl

/-- Default maximum bank fraction. -/
theorem cfgDefault_max_bank : cfgDefault.MAX_BANK_PERCENTAGE = 1/5 := rfl

/-- Default daily stop-loss fraction. -/
theorem cfgDefault_stop_loss : cfgDefault.DAILY_STOP_LOSS = 2/5 := rfl

/-- Default daily stop-gain fraction. -/
theorem cfgDefault_stop_gain : cfgDefault.DAILY_STOP_GAIN = 1 := rfl

/-- C7 (counterexample): a requested asset whose analysis comes back neutral
(flat candles) yields a report with status `executed` and an empty outcome
list — no `Skipped` entry for the asset appears, contradicting the claim that
every requested asset is listed. -/
theorem C7_skipped_asset_missing_from_report :
    (execute_trades cfgDefault envC7 ["EURUSD"] ⟨statsDay0, 0⟩).1.status
        = "executed" ∧
    (execute_trades cfgDefault envC7 ["EURUSD"] ⟨statsDay0, 0⟩).1.trades
        = [] := by
  have hmax : max (1 : ℚ) 200 = 200 := max_eq_right (by norm_num)
  refine ⟨?_, ?_⟩ <;>
    norm_num [execute_trades, check_stop_conditions, calculate_entry_amount,
      initStep, updateStep, update_balance, initialize_daily_stats, tradeLoop,
      pyRound2_200, hmax, analyze_flat3, flatSignals, statsDay0, envC7,
      cfgDefault_expiration, cfgDefault_max_bank, cfgDefault_stop_loss,
      cfgDefault_stop_gain]

end IQApp
